import Mathlib

/-!
Shallow embedding of the European-certificate verification core of
`verifier_european.go` (package mobilecore).

Modelling conventions:
* `time.Time` values are modelled as `Int` nanoseconds since the Unix epoch;
  `t.Before(u)` is `t < u`, `t.Add(d)` is `t + d`, `time.Unix(s, 0)` is
  `s * 1000000000`, and `time.Duration` values are `Int` nanoseconds.
* Go strings are modelled as Lean `String`s (sequences of characters).
* Timestamp fields that the Go code obtains by `time.Parse` of a string field
  (`dateOfVaccination`, `dateTimeOfCollection`, `dateOfFirstPositiveTest`,
  `certificateValidFrom`, `certificateValidUntil`) are modelled as
  `Option Int`: `none` is a string the parser rejects, `some t` a string that
  parses to the time `t`.  The date-of-birth field, whose character-level
  shape the code checks itself with a regular expression, is kept as a
  `String` and the regular expression is embedded directly.
* Errors are an inductive type with one constructor per `errors.Errorf` site,
  carrying the values interpolated into the format string; the
  `errors.WrapPrefix` context wrapping preserves the inner error and is
  dropped.
* The external signature verifier `europeanVerifier.VerifyQREncoded` is out of
  scope (an external collaborator); `verifyEuropean` receives its result as an
  `Option HealthCertificate` argument, `none` standing for a verifier error.
-/

/-- Nanoseconds in one second (`time.Second`). -/
def nsSecond : Int := 1000000000

/-- Nanoseconds in one hour (`time.Hour`). -/
def nsHour : Int := 3600 * nsSecond

/-- Nanoseconds in one day (`24 * time.Hour`). -/
def nsDay : Int := 24 * nsHour

/-- `time.Unix(s, 0)` as nanoseconds since the epoch. -/
def unixTime (s : Int) : Int := s * nsSecond

/-- `t.Truncate(24 * time.Hour)`: round down to a whole multiple of a day
(the Go zero time and the Unix epoch are both midnights, so the multiples
agree). -/
def truncateDay (t : Int) : Int := (t.fdiv nsDay) * nsDay

/-- Constant from the Go source. -/
def HCERT_SPECIMEN_EXPIRATION_TIME : Int := 42

/-- Constant from the Go source. -/
def DISEASE_TARGETED_COVID_19 : String := "840539006"

/-- Constant from the Go source. -/
def TEST_RESULT_NOT_DETECTED : String := "260415000"

/-- Constant from the Go source. -/
def NL_COUNTRY_CODE : String := "NL"

/-- Constant from the Go source. -/
def DOB_EMPTY_VALUE : String := "XX"

/-- `hcertcommon.DCCName`: the standardized name fields used by the verifier. -/
structure DCCName where
  standardizedFamilyName : String
  standardizedGivenName : String
  deriving DecidableEq

/-- `hcertcommon.DCCVaccination`: the fields read by `validateVaccination`. -/
structure DCCVaccination where
  diseaseTargeted : String
  medicinalProduct : String
  doseNumber : Int
  totalSeriesOfDoses : Int
  dateOfVaccination : Option Int
  deriving DecidableEq

/-- `hcertcommon.DCCTest`: the fields read by `validateTest`. -/
structure DCCTest where
  diseaseTargeted : String
  typeOfTest : String
  testResult : String
  dateTimeOfCollection : Option Int
  deriving DecidableEq

/-- `hcertcommon.DCCRecovery`: the fields read by `validateRecovery`. -/
structure DCCRecovery where
  diseaseTargeted : String
  dateOfFirstPositiveTest : Option Int
  certificateValidFrom : Option Int
  certificateValidUntil : Option Int
  deriving DecidableEq

/-- `hcertcommon.DCC`: the fields read by `validateDCC`. -/
structure DCC where
  dateOfBirth : String
  name : DCCName
  vaccinations : List DCCVaccination
  tests : List DCCTest
  recoveries : List DCCRecovery
  deriving DecidableEq

/-- `hcertcommon.HealthCertificate`: the fields read by the verifier. -/
structure HealthCertificate where
  issuer : String
  issuedAt : Int
  expirationTime : Int
  dcc : DCC
  deriving DecidableEq

/-- `europeanVerificationRules`: the policy fields read by the verifier. -/
structure europeanVerificationRules where
  vaccineAllowedProducts : List String
  testAllowedTypes : List String
  vaccinationValidityDelayDays : Int
  testValidityHours : Int
  recoveryValidFromDays : Int
  recoveryValidUntilDays : Int
  deriving DecidableEq

/-- The `VerificationDetails` result structure. -/
structure VerificationDetails where
  credentialVersion : String
  isSpecimen : String
  birthMonth : String
  birthDay : String
  firstNameInitial : String
  lastNameInitial : String
  deriving DecidableEq

/-- One constructor per `errors.Errorf` site of `verifier_european.go`,
carrying the values interpolated into the format string. -/
inductive VError where
  | cannotBeIssuedAfterExpiry
  | issuedBeforeCurrentTime
  | notValidAnymore (expirationTime : Int)
  | invalidDateOfBirth
  | nameMissing
  | noStatements
  | tooManyStatements (vaccAmount testAmount recAmount : Nat)
  | vaccWrongDisease
  | vaccProductNotAccepted
  | vaccDoseTooSmall
  | vaccDateUnparseable
  | vaccBeforeDelayedValidity
  | testWrongDisease
  | testTypeNotAllowed
  | testResultNotNegative
  | testCollectionUnparseable
  | testTooLongAgo (validityDuration : Int)
  | testInFuture
  | recWrongDisease
  | recTestDateUnparseable
  | recUntilBeforeFrom
  | recNotYetValid
  | recNotValidAnymore
  | couldNotParseDob
  | externalVerifierError
  deriving DecidableEq

/-- `containsString` from the Go source. -/
def containsString : List String → String → Bool
  | [], _ => false
  | elem :: rest, target => if elem = target then true else containsString rest target

/-- The year alternative `(?:19|20)\d\d` of `dateOfBirthRegex`, on the four
candidate year characters. -/
def dobYearChars (y1 y2 y3 y4 : Char) : Bool :=
  ((y1 == '1' && y2 == '9') || (y1 == '2' && y2 == '0')) && y3.isDigit && y4.isDigit

/-- Full-string match of `dateOfBirthRegex`,
`^(?:((?:19|20)\d\d)(?:-(\d\d)(?:-(\d\d))?)?)?$`, over the character list of
the input: the optional outer group admits the empty string, a year, a year
with `-MM`, or a year with `-MM-DD` (lengths 0, 4, 7, 10); the result carries
the three capture groups, each empty when unmatched. -/
def dobMatch : List Char → Option (List Char × List Char × List Char)
  | [] => some ([], [], [])
  | [y1, y2, y3, y4] =>
    if dobYearChars y1 y2 y3 y4 then some ([y1, y2, y3, y4], [], []) else none
  | [y1, y2, y3, y4, s1, m1, m2] =>
    if dobYearChars y1 y2 y3 y4 && s1 == '-' && m1.isDigit && m2.isDigit then
      some ([y1, y2, y3, y4], [m1, m2], [])
    else none
  | [y1, y2, y3, y4, s1, m1, m2, s2, d1, d2] =>
    if dobYearChars y1 y2 y3 y4 && s1 == '-' && m1.isDigit && m2.isDigit &&
        s2 == '-' && d1.isDigit && d2.isDigit then
      some ([y1, y2, y3, y4], [m1, m2], [d1, d2])
    else none
  | _ => none

/-- `parseDateOfBirth` from the Go source: apply `dateOfBirthRegex` and return
the year, month and day capture groups, or an error when the value does not
conform to the regex. -/
def parseDateOfBirth (value : String) : Option (String × String × String) :=
  match dobMatch value.data with
  | none => none
  | some (y, m, d) => some (String.mk y, String.mk m, String.mk d)

/-- `validateDateOfBirth` from the Go source. -/
def validateDateOfBirth (dob : String) : Except VError Unit :=
  match parseDateOfBirth dob with
  | none => .error .invalidDateOfBirth
  | some _ => .ok ()

/-- `validateName` from the Go source. -/
def validateName (name : DCCName) : Except VError Unit :=
  if name.standardizedFamilyName = "" ∧ name.standardizedGivenName = "" then
    .error .nameMissing
  else .ok ()

/-- `validateStatementAmount` from the Go source. -/
def validateStatementAmount (dcc : DCC) : Except VError Unit :=
  let vaccAmount := dcc.vaccinations.length
  let testAmount := dcc.tests.length
  let recAmount := dcc.recoveries.length
  let totalAmount := vaccAmount + testAmount + recAmount
  if totalAmount = 0 then
    .error .noStatements
  else if totalAmount > 1 then
    .error (.tooManyStatements vaccAmount testAmount recAmount)
  else .ok ()

/-- `validateHcert` from the Go source; `.ok isSpecimen` on success. -/
def validateHcert (hcert : HealthCertificate) (now : Int) : Except VError Bool :=
  if hcert.expirationTime = HCERT_SPECIMEN_EXPIRATION_TIME then
    .ok true
  else
    let issuedAt := unixTime hcert.issuedAt
    let expirationTime := unixTime hcert.expirationTime
    if expirationTime < issuedAt then
      .error .cannotBeIssuedAfterExpiry
    else if now < issuedAt then
      .error .issuedBeforeCurrentTime
    else if expirationTime < now then
      .error (.notValidAnymore hcert.expirationTime)
    else
      .ok false

/-- `validateVaccination` from the Go source. -/
def validateVaccination (vacc : DCCVaccination) (rules : europeanVerificationRules)
    (now : Int) : Except VError Unit :=
  if vacc.diseaseTargeted ≠ DISEASE_TARGETED_COVID_19 then
    .error .vaccWrongDisease
  else if ¬ containsString rules.vaccineAllowedProducts vacc.medicinalProduct then
    .error .vaccProductNotAccepted
  else if vacc.doseNumber < vacc.totalSeriesOfDoses then
    .error .vaccDoseTooSmall
  else
    match vacc.dateOfVaccination with
    | none => .error .vaccDateUnparseable
    | some dov =>
      let nowDate := truncateDay now
      let vaccinationValidFrom := dov + rules.vaccinationValidityDelayDays * 24 * nsHour
      if nowDate < vaccinationValidFrom then
        .error .vaccBeforeDelayedValidity
      else .ok ()

/-- `validateTest` from the Go source. -/
def validateTest (test : DCCTest) (rules : europeanVerificationRules)
    (now : Int) : Except VError Unit :=
  if test.diseaseTargeted ≠ DISEASE_TARGETED_COVID_19 then
    .error .testWrongDisease
  else if ¬ containsString rules.testAllowedTypes test.typeOfTest then
    .error .testTypeNotAllowed
  else if test.testResult ≠ TEST_RESULT_NOT_DETECTED then
    .error .testResultNotNegative
  else
    match test.dateTimeOfCollection with
    | none => .error .testCollectionUnparseable
    | some doc =>
      let testValidityDuration := rules.testValidityHours * nsHour
      let testExpirationTime := doc + testValidityDuration
      if testExpirationTime < now then
        .error (.testTooLongAgo testValidityDuration)
      else if now < doc then
        .error .testInFuture
      else .ok ()

/-- `validateRecovery` from the Go source. -/
def validateRecovery (rec : DCCRecovery) (rules : europeanVerificationRules)
    (now : Int) : Except VError Unit :=
  if rec.diseaseTargeted ≠ DISEASE_TARGETED_COVID_19 then
    .error .recWrongDisease
  else
    match rec.dateOfFirstPositiveTest with
    | none => .error .recTestDateUnparseable
    | some testDate =>
      let validFromDays := rules.recoveryValidFromDays
      let validUntilDays := rules.recoveryValidUntilDays
      let validFrom := testDate + validFromDays * 24 * nsHour
      let validUntil := testDate + validUntilDays * 24 * nsHour
      let validFrom :=
        match rec.certificateValidFrom with
        | some specifiedValidFrom =>
          if validFrom < specifiedValidFrom then specifiedValidFrom else validFrom
        | none => validFrom
      let validUntil :=
        match rec.certificateValidUntil with
        | some specifiedValidUntil =>
          if specifiedValidUntil < validUntil then specifiedValidUntil else validUntil
        | none => validUntil
      if validUntil < validFrom then
        .error .recUntilBeforeFrom
      else if now < validFrom then
        .error .recNotYetValid
      else if validUntil < now then
        .error .recNotValidAnymore
      else .ok ()

/-- The per-statement validation loops of `validateDCC`: first error wins. -/
def validateAll {α : Type} (f : α → Except VError Unit) : List α → Except VError Unit
  | [] => .ok ()
  | x :: rest =>
    match f x with
    | .error e => .error e
    | .ok _ => validateAll f rest

/-- `validateDCC` from the Go source. -/
def validateDCC (dcc : DCC) (rules : europeanVerificationRules)
    (now : Int) : Except VError Unit :=
  match validateDateOfBirth dcc.dateOfBirth with
  | .error e => .error e
  | .ok _ =>
    match validateName dcc.name with
    | .error e => .error e
    | .ok _ =>
      match validateStatementAmount dcc with
      | .error e => .error e
      | .ok _ =>
        match validateAll (fun vacc => validateVaccination vacc rules now) dcc.vaccinations with
        | .error e => .error e
        | .ok _ =>
          match validateAll (fun test => validateTest test rules now) dcc.tests with
          | .error e => .error e
          | .ok _ =>
            validateAll (fun rec => validateRecovery rec rules now) dcc.recoveries

/-- First character of a Go string as a string (`s[0:1]` on a non-empty `s`,
empty string otherwise, at character granularity). -/
def firstCharStr (s : String) : String :=
  match s.data with
  | [] => ""
  | c :: _ => String.mk [c]

/-- `buildVerificationDetails` from the Go source; `none` is the error
return. -/
def buildVerificationDetails (hcert : HealthCertificate) (isSpecimen : Bool) :
    Option VerificationDetails :=
  let isSpecimenStr := if isSpecimen then "1" else "0"
  match parseDateOfBirth hcert.dcc.dateOfBirth with
  | none => none
  | some (_, birthMonth, birthDay) =>
    let birthMonth := if birthMonth = "" then DOB_EMPTY_VALUE else birthMonth
    let birthDay := if birthDay = "" then DOB_EMPTY_VALUE else birthDay
    let firstNameInitial := firstCharStr hcert.dcc.name.standardizedGivenName
    let familyNameInitial := firstCharStr hcert.dcc.name.standardizedFamilyName
    some {
      credentialVersion := "1"
      isSpecimen := isSpecimenStr
      birthMonth := birthMonth
      birthDay := birthDay
      firstNameInitial := firstNameInitial
      lastNameInitial := familyNameInitial
    }

/-- `verifyEuropean` from the Go source, given the result of the external
signature verifier (`none` when `VerifyQREncoded` fails).  The result triple
mirrors Go's `(details, isNLDCC, err)`. -/
def verifyEuropean (hcertResult : Option HealthCertificate)
    (rules : europeanVerificationRules) (now : Int) :
    Option VerificationDetails × Bool × Option VError :=
  match hcertResult with
  | none => (none, false, some .externalVerifierError)
  | some hcert =>
    if hcert.issuer = NL_COUNTRY_CODE then
      (none, true, none)
    else
      match validateHcert hcert now with
      | .error e => (none, false, some e)
      | .ok isSpecimen =>
        match validateDCC hcert.dcc rules now with
        | .error e => (none, false, some e)
        | .ok _ =>
          match buildVerificationDetails hcert isSpecimen with
          | none => (none, false, some .couldNotParseDob)
          | some result => (result, false, none)

/-! ### Sample values used by witnesses -/

/-- A sample policy rule set. -/
def sampleRules : europeanVerificationRules :=
  { vaccineAllowedProducts := ["EU/1/20/1528"]
    testAllowedTypes := ["LP6464-4"]
    vaccinationValidityDelayDays := 14
    testValidityHours := 48
    recoveryValidFromDays := 11
    recoveryValidUntilDays := 180 }

/-- A sample standardized name. -/
def sampleName : DCCName :=
  { standardizedFamilyName := "DOE", standardizedGivenName := "JAN" }

/-- A sample negative test statement collected at the epoch. -/
def sampleTest : DCCTest :=
  { diseaseTargeted := DISEASE_TARGETED_COVID_19
    typeOfTest := "LP6464-4"
    testResult := TEST_RESULT_NOT_DETECTED
    dateTimeOfCollection := some 0 }

/-- A sample vaccination statement with one dose out of two. -/
def sampleVacc : DCCVaccination :=
  { diseaseTargeted := DISEASE_TARGETED_COVID_19
    medicinalProduct := "EU/1/20/1528"
    doseNumber := 1
    totalSeriesOfDoses := 2
    dateOfVaccination := some 0 }

/-- A DCC carrying no statement at all. -/
def emptyDCC : DCC :=
  { dateOfBirth := "1990-01-01", name := sampleName
    vaccinations := [], tests := [], recoveries := [] }

/-- A DCC carrying one test statement. -/
def sampleDCC : DCC :=
  { dateOfBirth := "1990-01-01", name := sampleName
    vaccinations := [], tests := [sampleTest], recoveries := [] }

/-- A sample non-NL certificate around the epoch, carrying `sampleDCC`. -/
def sampleHcert : HealthCertificate :=
  { issuer := "DE", issuedAt := 100, expirationTime := 200, dcc := sampleDCC }

/-- A sample certificate with the specimen sentinel expiration time. -/
def specimenHcert : HealthCertificate :=
  { issuer := "DE", issuedAt := 100, expirationTime := 42, dcc := sampleDCC }

/-- A sample certificate issued by NL. -/
def nlHcert : HealthCertificate :=
  { issuer := "NL", issuedAt := 100, expirationTime := 200, dcc := sampleDCC }

/-! ### Shared helper lemmas -/

/-- A successful `validateDCC` run implies each of its leading stages
succeeded. -/
theorem validateDCC_ok_implies {dcc : DCC} {rules : europeanVerificationRules}
    {now : Int} (h : validateDCC dcc rules now = .ok ()) :
    validateDateOfBirth dcc.dateOfBirth = .ok () ∧
    validateName dcc.name = .ok () ∧
    validateStatementAmount dcc = .ok () := by
  cases hdob : validateDateOfBirth dcc.dateOfBirth with
  | error e => simp [validateDCC, hdob] at h
  | ok u =>
    cases hname : validateName dcc.name with
    | error e => simp [validateDCC, hdob, hname] at h
    | ok v =>
      cases hamt : validateStatementAmount dcc with
      | error e => simp [validateDCC, hdob, hname, hamt] at h
      | ok w =>
        cases u; cases v; cases w
        exact ⟨rfl, rfl, rfl⟩

/-! ### Claim theorems -/

/-- C4: `validateHcert` returns specimen with no error exactly on the sentinel
expiration time, performing no temporal check there; on any other certificate
it errors precisely when the expiration precedes issuance, or now precedes
issuance, or the expiration precedes now — each condition yielding its own
distinct error — and otherwise returns non-specimen with no error. -/
theorem validateHcert_characterization (hcert : HealthCertificate) (now : Int) :
    (hcert.expirationTime = HCERT_SPECIMEN_EXPIRATION_TIME →
      validateHcert hcert now = .ok true) ∧
    (hcert.expirationTime ≠ HCERT_SPECIMEN_EXPIRATION_TIME →
      ((∃ e, validateHcert hcert now = .error e) ↔
        (unixTime hcert.expirationTime < unixTime hcert.issuedAt ∨
         now < unixTime hcert.issuedAt ∨
         unixTime hcert.expirationTime < now)) ∧
      (unixTime hcert.expirationTime < unixTime hcert.issuedAt →
        validateHcert hcert now = .error .cannotBeIssuedAfterExpiry) ∧
      (¬ unixTime hcert.expirationTime < unixTime hcert.issuedAt →
        now < unixTime hcert.issuedAt →
        validateHcert hcert now = .error .issuedBeforeCurrentTime) ∧
      (¬ unixTime hcert.expirationTime < unixTime hcert.issuedAt →
        ¬ now < unixTime hcert.issuedAt →
        unixTime hcert.expirationTime < now →
        validateHcert hcert now = .error (.notValidAnymore hcert.expirationTime)) ∧
      (¬ (unixTime hcert.expirationTime < unixTime hcert.issuedAt ∨
          now < unixTime hcert.issuedAt ∨
          unixTime hcert.expirationTime < now) →
        validateHcert hcert now = .ok false)) ∧
    (VError.cannotBeIssuedAfterExpiry ≠ VError.issuedBeforeCurrentTime ∧
     VError.cannotBeIssuedAfterExpiry ≠ VError.notValidAnymore hcert.expirationTime ∧
     VError.issuedBeforeCurrentTime ≠ VError.notValidAnymore hcert.expirationTime) := by
  refine ⟨fun hs => by simp [validateHcert, hs], fun hs => ?_, by simp, by simp, by simp⟩
  simp only [validateHcert, hs, if_false]
  split_ifs with h1 h2 h3 <;> simp_all

/-- C4 witness: the characterization applied to a concrete specimen
certificate and a concrete valid certificate. -/
theorem validateHcert_characterization_witness :
    validateHcert specimenHcert 0 = .ok true ∧
    validateHcert sampleHcert (unixTime 150) = .ok false :=
  ⟨(validateHcert_characterization specimenHcert 0).1 rfl,
   ((validateHcert_characterization sampleHcert (unixTime 150)).2.1
      (by decide)).2.2.2.2 (by simp [sampleHcert, unixTime, nsSecond])⟩

/-- C3: with the disease code and product allow-list checks satisfied, the
dose-count rule of `validateVaccination` rejects exactly when the dose number
is strictly smaller than the declared series total, and passes (never yielding
the dose-count error) whenever the dose number reaches or exceeds the
total. -/
theorem validateVaccination_dose_rule (vacc : DCCVaccination)
    (rules : europeanVerificationRules) (now : Int)
    (hdis : vacc.diseaseTargeted = DISEASE_TARGETED_COVID_19)
    (hprod : containsString rules.vaccineAllowedProducts vacc.medicinalProduct = true) :
    (validateVaccination vacc rules now = .error .vaccDoseTooSmall ↔
      vacc.doseNumber < vacc.totalSeriesOfDoses) ∧
    (vacc.totalSeriesOfDoses ≤ vacc.doseNumber →
      validateVaccination vacc rules now ≠ .error .vaccDoseTooSmall) := by
  have key : validateVaccination vacc rules now = .error .vaccDoseTooSmall ↔
      vacc.doseNumber < vacc.totalSeriesOfDoses := by
    simp only [validateVaccination, hdis, hprod, ne_eq, not_true_eq_false, if_false,
      Bool.true_eq_false, not_false_eq_true, if_true]
    split_ifs with h1
    · simp [h1]
    · simp only [h1, iff_false]
      rcases vacc.dateOfVaccination with _ | dov
      · simp
      · simp only
        split_ifs <;> simp
  exact ⟨key, fun hle h => absurd (key.mp h) (by omega)⟩

/-- C3 witness: the dose rule applied to a concrete one-of-two-doses
vaccination statement. -/
theorem validateVaccination_dose_rule_witness :
    validateVaccination sampleVacc sampleRules 0 = .error .vaccDoseTooSmall :=
  (validateVaccination_dose_rule sampleVacc sampleRules 0 rfl rfl).1.mpr (by decide)

/-- C7: a certificate whose issuer is the NL country code is returned as the
NL-DCC pass-through: no details, no error, and no metadata or DCC validation
is performed (the result is this constant for every rule set, time, and
certificate content). -/
theorem verifyEuropean_nl_passthrough (hcert : HealthCertificate)
    (rules : europeanVerificationRules) (now : Int)
    (hnl : hcert.issuer = NL_COUNTRY_CODE) :
    verifyEuropean (some hcert) rules now = (none, true, none) := by
  simp [verifyEuropean, hnl]

/-- C7 witness: the pass-through applied to a concrete NL certificate. -/
theorem verifyEuropean_nl_passthrough_witness :
    verifyEuropean (some nlHcert) sampleRules 12345 = (none, true, none) :=
  verifyEuropean_nl_passthrough nlHcert sampleRules 12345 rfl

/-- C2 counterexample: on a DCC with zero statements (actual counts 0, 0, 0)
the failure error is the fixed no-statements error, which is not the error
that names the three actual counts. -/
theorem validateStatementAmount_zero_counterexample :
    validateStatementAmount emptyDCC = .error .noStatements ∧
    VError.noStatements ≠ VError.tooManyStatements 0 0 0 :=
  ⟨rfl, by decide⟩

/-- C2 (amended): `validateStatementAmount` succeeds exactly when the summed
statement count is 1; a zero count yields the fixed no-statements error, a
count above one yields the error naming the three actual counts; and whenever
the count differs from 1, `validateDCC` fails regardless of the statements'
own validity. -/
theorem validateStatementAmount_characterization (dcc : DCC)
    (rules : europeanVerificationRules) (now : Int) :
    (validateStatementAmount dcc = .ok () ↔
      dcc.vaccinations.length + dcc.tests.length + dcc.recoveries.length = 1) ∧
    (dcc.vaccinations.length + dcc.tests.length + dcc.recoveries.length = 0 →
      validateStatementAmount dcc = .error .noStatements) ∧
    (dcc.vaccinations.length + dcc.tests.length + dcc.recoveries.length > 1 →
      validateStatementAmount dcc = .error
        (.tooManyStatements dcc.vaccinations.length dcc.tests.length
          dcc.recoveries.length)) ∧
    (dcc.vaccinations.length + dcc.tests.length + dcc.recoveries.length ≠ 1 →
      validateDCC dcc rules now ≠ .ok ()) := by
  have key : (validateStatementAmount dcc = .ok () ↔
      dcc.vaccinations.length + dcc.tests.length + dcc.recoveries.length = 1) ∧
      (dcc.vaccinations.length + dcc.tests.length + dcc.recoveries.length = 0 →
        validateStatementAmount dcc = .error .noStatements) ∧
      (dcc.vaccinations.length + dcc.tests.length + dcc.recoveries.length > 1 →
        validateStatementAmount dcc = .error
          (.tooManyStatements dcc.vaccinations.length dcc.tests.length
            dcc.recoveries.length)) := by
    simp only [validateStatementAmount]
    split_ifs with h1 h2
    · exact ⟨by simp; omega, fun _ => rfl, fun hgt => absurd hgt (by omega)⟩
    · exact ⟨by simp; omega, fun h0 => absurd h0 h1, fun _ => rfl⟩
    · exact ⟨by simp; omega, fun h0 => absurd h0 h1, fun hgt => absurd hgt h2⟩
  refine ⟨key.1, key.2.1, key.2.2, fun hne hok => ?_⟩
  exact absurd (key.1.mp (validateDCC_ok_implies hok).2.2) hne

/-- C2 witness: the amended characterization applied to a DCC with one
statement, to an empty DCC, and to a two-statement DCC. -/
theorem validateStatementAmount_characterization_witness :
    validateStatementAmount sampleDCC = .ok () ∧
    validateStatementAmount emptyDCC = .error .noStatements ∧
    validateDCC emptyDCC sampleRules 0 ≠ .ok () :=
  ⟨(validateStatementAmount_characterization sampleDCC sampleRules 0).1.mpr (by decide),
   (validateStatementAmount_characterization emptyDCC sampleRules 0).2.1 (by decide),
   (validateStatementAmount_characterization emptyDCC sampleRules 0).2.2.2 (by decide)⟩

/-- C1 counterexample: with a 48-hour validity and collection at time 0,
`validateTest` still succeeds when now equals the exact window end
`collectionTime + 48h`, where the claimed half-open window demands failure. -/
theorem validateTest_window_end_counterexample :
    validateTest sampleTest sampleRules (48 * nsHour) = .ok () ∧
    ¬ (48 * nsHour < (0 : Int) + 48 * nsHour) :=
  ⟨rfl, by omega⟩

/-- C1 (amended): for a test statement passing the disease, type allow-list
and not-detected checks, with a parseable collection time, `validateTest`
succeeds exactly when now lies in the closed window
`[collectionTime, collectionTime + TestValidityHours]`: it fails when now is
before the collection time or strictly past the window end, and succeeds
otherwise, including at the window end itself. -/
theorem validateTest_window (test : DCCTest) (rules : europeanVerificationRules)
    (now doc : Int)
    (hdis : test.diseaseTargeted = DISEASE_TARGETED_COVID_19)
    (htype : containsString rules.testAllowedTypes test.typeOfTest = true)
    (hres : test.testResult = TEST_RESULT_NOT_DETECTED)
    (hdoc : test.dateTimeOfCollection = some doc) :
    validateTest test rules now = .ok () ↔
      doc ≤ now ∧ now ≤ doc + rules.testValidityHours * nsHour := by
  simp only [validateTest, hdis, htype, hres, hdoc, ne_eq, not_true_eq_false,
    if_false, Bool.true_eq_false, not_false_eq_true, if_true]
  split_ifs with h1 h2 <;> simp <;> omega

/-- C1 witness: the closed-window rule applied to a concrete test statement
collected 10 hours before now under a 48-hour policy. -/
theorem validateTest_window_witness :
    validateTest sampleTest sampleRules (10 * nsHour) = .ok () :=
  (validateTest_window sampleTest sampleRules (10 * nsHour) 0 rfl rfl rfl rfl).mpr
    (by decide)

/-- A sample recovery statement first positive at the epoch, with no
certificate-embedded bounds. -/
def sampleRec : DCCRecovery :=
  { diseaseTargeted := DISEASE_TARGETED_COVID_19
    dateOfFirstPositiveTest := some 0
    certificateValidFrom := none
    certificateValidUntil := none }

/-- Spec-side definition for C5, following the claim's words: the recovery
window start is the policy default `testDate + RecoveryValidFromDays` days,
replaced by a parseable certificate-embedded valid-from only when that is
later. -/
def claimRecoveryStart (rules : europeanVerificationRules) (testDate : Int)
    (certValidFrom : Option Int) : Int :=
  let defaultStart := testDate + rules.recoveryValidFromDays * nsDay
  match certValidFrom with
  | none => defaultStart
  | some v => if defaultStart < v then v else defaultStart

/-- Spec-side definition for C5, following the claim's words: the recovery
window end is the policy default `testDate + RecoveryValidUntilDays` days,
replaced by a parseable certificate-embedded valid-until only when that is
earlier. -/
def claimRecoveryEnd (rules : europeanVerificationRules) (testDate : Int)
    (certValidUntil : Option Int) : Int :=
  let defaultEnd := testDate + rules.recoveryValidUntilDays * nsDay
  match certValidUntil with
  | none => defaultEnd
  | some v => if v < defaultEnd then v else defaultEnd

/-- A whole number of days expressed as in the Go source equals the same
number of days expressed with `nsDay`. -/
theorem day_duration_eq (d : Int) : d * 24 * nsHour = d * nsDay := by
  unfold nsDay; ring

/-- C5: for a recovery statement with the COVID-19 disease code and a
parseable first-positive-test date, `validateRecovery` succeeds exactly when
now lies inside the intersected window whose start is the policy default
raised to a later certificate-embedded valid-from and whose end is the policy
default lowered to an earlier certificate-embedded valid-until, the window
being non-degenerate: it fails exactly when the end precedes the start, now
precedes the start, or the end precedes now. -/
theorem validateRecovery_window (rec : DCCRecovery)
    (rules : europeanVerificationRules) (now td : Int)
    (hdis : rec.diseaseTargeted = DISEASE_TARGETED_COVID_19)
    (htd : rec.dateOfFirstPositiveTest = some td) :
    validateRecovery rec rules now = .ok () ↔
      (¬ claimRecoveryEnd rules td rec.certificateValidUntil <
          claimRecoveryStart rules td rec.certificateValidFrom ∧
       ¬ now < claimRecoveryStart rules td rec.certificateValidFrom ∧
       ¬ claimRecoveryEnd rules td rec.certificateValidUntil < now) := by
  rcases hvf : rec.certificateValidFrom with _ | svf <;>
    rcases hvu : rec.certificateValidUntil with _ | svu <;>
    simp only [validateRecovery, hdis, htd, hvf, hvu, claimRecoveryStart,
      claimRecoveryEnd, day_duration_eq, ne_eq, not_true_eq_false, if_false,
      Bool.false_eq_true] <;>
    split_ifs <;> simp_all

/-- C5 witness: the window rule applied to a concrete recovery statement 20
days after the first positive test, under an 11-to-180-day policy and no
certificate-embedded bounds. -/
theorem validateRecovery_window_witness :
    validateRecovery sampleRec sampleRules (20 * nsDay) = .ok () :=
  (validateRecovery_window sampleRec sampleRules (20 * nsDay) 0 rfl rfl).mpr
    (by decide)

/-! ### Date-of-birth shape lemmas -/

/-- Any month and day capture groups produced by `dobMatch` are each empty or
exactly two digits, matching the `(\d\d)` groups of the regex. -/
theorem dobMatch_groups_shape {l y m d : List Char}
    (h : dobMatch l = some (y, m, d)) :
    (m = [] ∨ (m.length = 2 ∧ ∀ c ∈ m, c.isDigit)) ∧
    (d = [] ∨ (d.length = 2 ∧ ∀ c ∈ d, c.isDigit)) := by
  unfold dobMatch at h
  split at h
  · simp only [Option.some.injEq, Prod.mk.injEq] at h
    obtain ⟨-, hm, hd⟩ := h
    subst hm; subst hd
    simp
  · split_ifs at h with hc
    simp only [Option.some.injEq, Prod.mk.injEq] at h
    obtain ⟨-, hm, hd⟩ := h
    subst hm; subst hd
    simp
  · split_ifs at h with hc
    simp only [Bool.and_eq_true, beq_iff_eq] at hc
    obtain ⟨⟨⟨-, -⟩, hm1⟩, hm2⟩ := hc
    simp only [Option.some.injEq, Prod.mk.injEq] at h
    obtain ⟨-, hm, hd⟩ := h
    subst hm; subst hd
    simp [hm1, hm2]
  · split_ifs at h with hc
    simp only [Bool.and_eq_true, beq_iff_eq] at hc
    obtain ⟨⟨⟨⟨⟨⟨-, -⟩, hm1⟩, hm2⟩, -⟩, hd1⟩, hd2⟩ := hc
    simp only [Option.some.injEq, Prod.mk.injEq] at h
    obtain ⟨-, hm, hd⟩ := h
    subst hm; subst hd
    simp [hm1, hm2, hd1, hd2]
  · simp at h

/-- Spec-side shape for C6 exactly as the claim words it: any 4-digit year. -/
def claimYearShape (l : List Char) : Prop :=
  l.length = 4 ∧ ∀ c ∈ l, c.isDigit

/-- The year shape the regex actually enforces: four digits whose first two
are `19` or `20`. -/
def codeYearShape (l : List Char) : Prop :=
  l.length = 4 ∧ (l.take 2 = ['1', '9'] ∨ l.take 2 = ['2', '0']) ∧
    ∀ c ∈ l.drop 2, c.isDigit

/-- A two-character all-digit group (`\d\d`). -/
def twoDigitShape (l : List Char) : Prop :=
  l.length = 2 ∧ ∀ c ∈ l, c.isDigit

/-- The date-of-birth shape families of the claim wording, parameterized by
the year shape: empty, a year alone, a year then `-` and two digits, or a
year then `-MM-DD`. -/
def DobShape (year : List Char → Prop) (s : String) : Prop :=
  s.data = [] ∨ year s.data ∨
  (∃ y m, s.data = y ++ '-' :: m ∧ year y ∧ twoDigitShape m) ∨
  (∃ y m d, s.data = y ++ '-' :: m ++ '-' :: d ∧ year y ∧ twoDigitShape m ∧
    twoDigitShape d)

/-- The boolean year guard agrees with the enforced year shape. -/
theorem dobYearChars_iff (y1 y2 y3 y4 : Char) :
    dobYearChars y1 y2 y3 y4 = true ↔ codeYearShape [y1, y2, y3, y4] := by
  unfold dobYearChars codeYearShape
  simp only [Bool.and_eq_true, Bool.or_eq_true, beq_iff_eq, List.length_cons,
    List.length_nil, List.take_succ_cons, List.take_zero, List.drop_succ_cons,
    List.drop_zero, List.mem_cons, List.not_mem_nil, or_false, List.cons.injEq,
    and_true, forall_eq_or_imp, forall_eq]
  constructor
  · rintro ⟨⟨h12 | h12, h3⟩, h4⟩ <;> simp_all
  · rintro ⟨-, h12 | h12, h3, h4⟩ <;> simp_all

/-- The boolean two-digit guard agrees with the two-digit shape. -/
theorem twoDigitShape_pair (m1 m2 : Char) :
    twoDigitShape [m1, m2] ↔ m1.isDigit ∧ m2.isDigit := by
  unfold twoDigitShape
  simp

/-- Destructure a four-character list. -/
theorem length_four_chars {l : List Char} (h : l.length = 4) :
    ∃ a b c d, l = [a, b, c, d] := by
  rcases l with _ | ⟨a, _ | ⟨b, _ | ⟨c, _ | ⟨d, _ | ⟨e, t⟩⟩⟩⟩⟩ <;>
    simp only [List.length_cons, List.length_nil] at h <;>
    first
      | omega
      | exact ⟨a, b, c, d, rfl⟩

/-- Destructure a two-character list. -/
theorem length_two_chars {l : List Char} (h : l.length = 2) :
    ∃ a b, l = [a, b] := by
  rcases l with _ | ⟨a, _ | ⟨b, _ | ⟨c, t⟩⟩⟩ <;>
    simp only [List.length_cons, List.length_nil] at h <;>
    first
      | omega
      | exact ⟨a, b, rfl⟩

/-- `dobMatch` accepts exactly the four regex shape families, with the year
restricted to begin with 19 or 20. -/
theorem dobMatch_isSome_iff (l : List Char) :
    (dobMatch l).isSome = true ↔
      (l = [] ∨ codeYearShape l ∨
       (∃ y m, l = y ++ '-' :: m ∧ codeYearShape y ∧ twoDigitShape m) ∨
       (∃ y m d, l = y ++ '-' :: m ++ '-' :: d ∧ codeYearShape y ∧
         twoDigitShape m ∧ twoDigitShape d)) := by
  constructor
  · intro h
    unfold dobMatch at h
    split at h
    · exact Or.inl rfl
    · split_ifs at h with hc
      · exact Or.inr (Or.inl ((dobYearChars_iff _ _ _ _).mp hc))
      · simp at h
    · split_ifs at h with hc
      · simp only [Bool.and_eq_true, beq_iff_eq] at hc
        obtain ⟨⟨⟨hy, hs⟩, hm1⟩, hm2⟩ := hc
        subst hs
        exact Or.inr (Or.inr (Or.inl ⟨_, _, rfl, (dobYearChars_iff _ _ _ _).mp hy,
          (twoDigitShape_pair _ _).mpr ⟨hm1, hm2⟩⟩))
      · simp at h
    · split_ifs at h with hc
      · simp only [Bool.and_eq_true, beq_iff_eq] at hc
        obtain ⟨⟨⟨⟨⟨⟨hy, hs1⟩, hm1⟩, hm2⟩, hs2⟩, hd1⟩, hd2⟩ := hc
        subst hs1; subst hs2
        exact Or.inr (Or.inr (Or.inr ⟨_, _, _, rfl,
          (dobYearChars_iff _ _ _ _).mp hy,
          (twoDigitShape_pair _ _).mpr ⟨hm1, hm2⟩,
          (twoDigitShape_pair _ _).mpr ⟨hd1, hd2⟩⟩))
      · simp at h
    · simp at h
  · intro h
    rcases h with h | h | ⟨y, m, hl, hy, hm⟩ | ⟨y, m, d, hl, hy, hm, hd⟩
    · subst h; rfl
    · obtain ⟨a, b, c, e, hl⟩ := length_four_chars h.1
      subst hl
      have hg := (dobYearChars_iff a b c e).mpr h
      simp [dobMatch, hg]
    · obtain ⟨a, b, c, e, hy'⟩ := length_four_chars hy.1
      obtain ⟨f, g, hm'⟩ := length_two_chars hm.1
      subst hy'; subst hm'; subst hl
      have hg := (dobYearChars_iff a b c e).mpr hy
      have hp := (twoDigitShape_pair f g).mp hm
      simp only [List.cons_append, List.nil_append]
      simp [dobMatch, hg, hp.1, hp.2]
    · obtain ⟨a, b, c, e, hy'⟩ := length_four_chars hy.1
      obtain ⟨f, g, hm'⟩ := length_two_chars hm.1
      obtain ⟨p, q, hd'⟩ := length_two_chars hd.1
      subst hy'; subst hm'; subst hd'; subst hl
      have hg := (dobYearChars_iff a b c e).mpr hy
      have hp := (twoDigitShape_pair f g).mp hm
      have hq := (twoDigitShape_pair p q).mp hd
      simp only [List.cons_append, List.nil_append]
      simp [dobMatch, hg, hp.1, hp.2, hq.1, hq.2]

/-- C6 counterexample: `"1800"` is a four-digit year alone — one of the
claimed accepted shapes — yet date-of-birth validation rejects it, because
the regex year must begin with 19 or 20. -/
theorem validateDateOfBirth_1800_counterexample :
    DobShape claimYearShape "1800" ∧
    parseDateOfBirth "1800" = none ∧
    validateDateOfBirth "1800" = .error .invalidDateOfBirth :=
  ⟨Or.inr (Or.inl ⟨by decide, by decide⟩), rfl, rfl⟩

/-- C6 (amended): date-of-birth validation accepts exactly the shapes: the
empty string, a year alone, a year followed by `-` and two digits, or a year
followed by `-MM-DD` — where a year is four digits whose first two are `19`
or `20`; every other string is rejected. -/
theorem validateDateOfBirth_shapes (s : String) :
    validateDateOfBirth s = .ok () ↔ DobShape codeYearShape s := by
  have h := dobMatch_isSome_iff s.data
  unfold DobShape
  cases hq : dobMatch s.data with
  | none =>
    rw [hq] at h
    simp only [Option.isSome_none, Bool.false_eq_true, false_iff] at h
    constructor
    · intro hval
      exfalso
      simp [validateDateOfBirth, parseDateOfBirth, hq] at hval
    · intro hsh
      exact absurd hsh h
  | some t =>
    rw [hq] at h
    simp only [Option.isSome_some, true_iff] at h
    obtain ⟨ly, lm, ld⟩ := t
    constructor
    · intro _
      exact h
    · intro _
      simp [validateDateOfBirth, parseDateOfBirth, hq]

/-- C6 witness: the amended shape rule applied to the concrete accepted value
`"1999-02"` and the concrete rejected value `"2100"`. -/
theorem validateDateOfBirth_shapes_witness :
    validateDateOfBirth "1999-02" = .ok () ∧
    ¬ DobShape codeYearShape "2100" :=
  ⟨(validateDateOfBirth_shapes "1999-02").mpr
      (Or.inr (Or.inr (Or.inl ⟨['1', '9', '9', '9'], ['0', '2'], by decide,
        ⟨by decide, by decide, by decide⟩, by decide, by decide⟩))),
   fun hsh => by
     have h2 := (validateDateOfBirth_shapes "2100").mpr hsh
     have h3 : validateDateOfBirth "2100" = .error .invalidDateOfBirth := rfl
     rw [h3] at h2
     exact Except.noConfusion h2⟩

/-- Predicate for C8: a string is exactly two ASCII digits or the redaction
marker. -/
def twoDigitsOrRedacted (s : String) : Prop :=
  (s.data.length = 2 ∧ ∀ c ∈ s.data, c.isDigit) ∨ s = DOB_EMPTY_VALUE

/-- `firstCharStr` yields at most one character: the first character when the
string is non-empty, the empty string otherwise. -/
theorem firstCharStr_spec (s : String) :
    (firstCharStr s).length ≤ 1 ∧
    (s = "" → firstCharStr s = "") ∧
    (s ≠ "" → (firstCharStr s).data = s.data.take 1) := by
  unfold firstCharStr
  cases hs : s.data with
  | nil =>
    refine ⟨by simp [String.length], fun _ => rfl, fun hne => ?_⟩
    exact absurd (String.ext (hs.trans rfl)) hne
  | cons c rest =>
    refine ⟨by simp [String.length], fun he => ?_, fun _ => by simp [hs]⟩
    rw [he] at hs
    have h0 : ("" : String).data = ([] : List Char) := rfl
    rw [h0] at hs
    exact List.noConfusion hs

/-- The redaction substitution of `buildVerificationDetails` turns an
empty-or-two-digit group into a two-digit-or-marker, never-empty string. -/
theorem redactEmpty_shape {s : String}
    (hl : s.data = [] ∨ (s.data.length = 2 ∧ ∀ c ∈ s.data, c.isDigit)) :
    twoDigitsOrRedacted (if s = "" then DOB_EMPTY_VALUE else s) ∧
    (if s = "" then DOB_EMPTY_VALUE else s) ≠ "" := by
  by_cases he : s = ""
  · rw [if_pos he]
    exact ⟨Or.inr rfl, by decide⟩
  · rw [if_neg he]
    rcases hl with hl | hok
    · exact absurd (String.ext (hl.trans rfl)) he
    · exact ⟨Or.inl hok, he⟩

/-- C8: every details value built by `buildVerificationDetails` satisfies the
privacy invariant: each initial is at most one character — the first
character of the corresponding standardized name when non-empty, empty
otherwise — and the birth month and day are each two ASCII digits or the
redaction marker, never the empty string. -/
theorem buildVerificationDetails_privacy (hcert : HealthCertificate)
    (isSpecimen : Bool) (details : VerificationDetails)
    (h : buildVerificationDetails hcert isSpecimen = some details) :
    details.firstNameInitial.length ≤ 1 ∧
    details.lastNameInitial.length ≤ 1 ∧
    (hcert.dcc.name.standardizedGivenName = "" → details.firstNameInitial = "") ∧
    (hcert.dcc.name.standardizedGivenName ≠ "" →
      details.firstNameInitial.data =
        hcert.dcc.name.standardizedGivenName.data.take 1) ∧
    (hcert.dcc.name.standardizedFamilyName = "" → details.lastNameInitial = "") ∧
    (hcert.dcc.name.standardizedFamilyName ≠ "" →
      details.lastNameInitial.data =
        hcert.dcc.name.standardizedFamilyName.data.take 1) ∧
    twoDigitsOrRedacted details.birthMonth ∧
    twoDigitsOrRedacted details.birthDay ∧
    details.birthMonth ≠ "" ∧ details.birthDay ≠ "" := by
  cases hp : parseDateOfBirth hcert.dcc.dateOfBirth with
  | none => simp [buildVerificationDetails, hp] at h
  | some t =>
    obtain ⟨y, m, d⟩ := t
    have hmd : (m.data = [] ∨ (m.data.length = 2 ∧ ∀ c ∈ m.data, c.isDigit)) ∧
        (d.data = [] ∨ (d.data.length = 2 ∧ ∀ c ∈ d.data, c.isDigit)) := by
      unfold parseDateOfBirth at hp
      cases hq : dobMatch hcert.dcc.dateOfBirth.data with
      | none => rw [hq] at hp; simp at hp
      | some t2 =>
        obtain ⟨ly, lm, ld⟩ := t2
        rw [hq] at hp
        simp only [Option.some.injEq, Prod.mk.injEq] at hp
        obtain ⟨-, hm2, hd2⟩ := hp
        subst hm2; subst hd2
        simpa using dobMatch_groups_shape hq
    simp only [buildVerificationDetails, hp, Option.some.injEq] at h
    subst h
    exact ⟨(firstCharStr_spec _).1, (firstCharStr_spec _).1,
      (firstCharStr_spec _).2.1, (firstCharStr_spec _).2.2,
      (firstCharStr_spec _).2.1, (firstCharStr_spec _).2.2,
      (redactEmpty_shape hmd.1).1, (redactEmpty_shape hmd.2).1,
      (redactEmpty_shape hmd.1).2, (redactEmpty_shape hmd.2).2⟩

/-- The concrete details built from `sampleHcert`. -/
def sampleDetails : VerificationDetails :=
  { credentialVersion := "1", isSpecimen := "0", birthMonth := "01",
    birthDay := "01", firstNameInitial := "J", lastNameInitial := "D" }

/-- C8 witness: the privacy invariant applied to the details concretely built
from `sampleHcert`. -/
theorem buildVerificationDetails_privacy_witness :
    twoDigitsOrRedacted sampleDetails.birthMonth ∧
    sampleDetails.birthMonth ≠ "" ∧
    sampleDetails.firstNameInitial.length ≤ 1 :=
  have h := buildVerificationDetails_privacy sampleHcert false sampleDetails rfl
  ⟨h.2.2.2.2.2.2.1, h.2.2.2.2.2.2.2.2.1, h.1⟩

/-- C9: once `validateDCC` has succeeded on a certificate's DCC, building the
verification details cannot fail — the date of birth re-parses because it was
already validated — and a successful non-NL verification always carries
non-nil details. -/
theorem verifyEuropean_details_total (hcert : HealthCertificate)
    (rules : europeanVerificationRules) (now : Int) :
    (∀ isSpecimen : Bool, validateDCC hcert.dcc rules now = .ok () →
      buildVerificationDetails hcert isSpecimen ≠ none) ∧
    (∀ details err, verifyEuropean (some hcert) rules now = (details, false, err) →
      err = none → details ≠ none) := by
  have hbuild : ∀ isSpecimen : Bool, validateDCC hcert.dcc rules now = .ok () →
      buildVerificationDetails hcert isSpecimen ≠ none := by
    intro b hok
    have hdob := (validateDCC_ok_implies hok).1
    cases hp : parseDateOfBirth hcert.dcc.dateOfBirth with
    | none => simp [validateDateOfBirth, hp] at hdob
    | some t =>
      obtain ⟨y, m, d⟩ := t
      simp [buildVerificationDetails, hp]
  refine ⟨hbuild, fun details err hv he => ?_⟩
  subst he
  by_cases hnl : hcert.issuer = NL_COUNTRY_CODE
  · simp [verifyEuropean, hnl] at hv
  · cases hh : validateHcert hcert now with
    | error e => simp [verifyEuropean, hnl, hh] at hv
    | ok sp =>
      cases hvd : validateDCC hcert.dcc rules now with
      | error e => simp [verifyEuropean, hnl, hh, hvd] at hv
      | ok u =>
        cases u
        cases hb : buildVerificationDetails hcert sp with
        | none => exact absurd hb (hbuild sp hvd)
        | some r =>
          simp only [verifyEuropean, hnl, if_false, hh, hvd, hb,
            Prod.mk.injEq] at hv
          obtain ⟨h1, -⟩ := hv
          rw [← h1]
          simp

/-- C9 witness: details are buildable for the concrete `sampleHcert` whose
DCC validates at 10 hours past the epoch. -/
theorem verifyEuropean_details_total_witness :
    buildVerificationDetails sampleHcert false ≠ none :=
  (verifyEuropean_details_total sampleHcert sampleRules (10 * nsHour)).1 false (by rfl)

/-- A certificate whose date of birth has out-of-range month and day digits. -/
def oddDobHcert : HealthCertificate :=
  { issuer := "DE", issuedAt := 100, expirationTime := 200
    dcc := { dateOfBirth := "1999-13-45", name := sampleName,
             vaccinations := [], tests := [sampleTest], recoveries := [] } }

/-- C10: date-of-birth validation applies no calendar range check: month 13
and day 45 are accepted by `parseDateOfBirth` and `validateDateOfBirth`, and
`buildVerificationDetails` copies the out-of-range two-digit groups verbatim
into the birth month and day fields. -/
theorem dob_no_calendar_range_check :
    parseDateOfBirth "1999-13-45" = some ("1999", "13", "45") ∧
    validateDateOfBirth "1999-13-45" = .ok () ∧
    (buildVerificationDetails oddDobHcert false).map VerificationDetails.birthMonth =
      some "13" ∧
    (buildVerificationDetails oddDobHcert false).map VerificationDetails.birthDay =
      some "45" :=
  ⟨by decide, rfl, by decide, by decide⟩
